import Mathlib

/-!
Shallow embedding of `src/final_project_demo/analysis.py` and proofs of the
specification's claims about it.

The module defines two functions over a tabular dataset keyed by U.S. state:

* `choropleth`: trims the `States` column, converts full state names to
  two-letter postal abbreviations (overwriting the column in place), and
  renders a choropleth figure colored by `Avg_PM25`.
* `high_and_low`: for a fixed list of indicator columns, computes mean,
  sample standard deviation, max and min (with the state attaining each) and
  assembles the formatted summary rows into a printed table.

Numeric data is modelled by `ℚ` (an idealization of the float columns), a
dataset by a `States` column plus an association list of numeric columns, and
fallible steps by `Except String`.  The external `us` library's state-name
directory is modelled by an explicit lookup table.
-/

deriving instance DecidableEq for Except

attribute [local semireducible] Rat.add Rat.mul Rat.inv Rat.sub

namespace FinalProjectDemo

/-- Whitespace characters removed by Python's `str.strip()` (ASCII range):
space, tab, newline, carriage return, vertical tab, form feed. -/
def isPySpace (c : Char) : Bool :=
  c == ' ' || c == '\t' || c == '\n' || c == '\r' || c.toNat == 11 || c.toNat == 12

/-- Model of Python's `str.strip()`: remove leading and trailing whitespace.
Used by `choropleth` via `df["States"].str.strip()`. -/
def pyStrip (s : String) : String :=
  String.mk (List.rdropWhile isPySpace (List.dropWhile isPySpace s.toList))

/-- Model of the external `us` library's state-name directory (the
state-name directory service of the spec): the canonical full name of each of
the fifty U.S. states paired with its two-letter postal abbreviation.
`us.states.lookup` resolves a full name against this table. -/
def usStatesList : List (String × String) :=
  [("Alabama", "AL"), ("Alaska", "AK"), ("Arizona", "AZ"), ("Arkansas", "AR"),
   ("California", "CA"), ("Colorado", "CO"), ("Connecticut", "CT"),
   ("Delaware", "DE"), ("Florida", "FL"), ("Georgia", "GA"), ("Hawaii", "HI"),
   ("Idaho", "ID"), ("Illinois", "IL"), ("Indiana", "IN"), ("Iowa", "IA"),
   ("Kansas", "KS"), ("Kentucky", "KY"), ("Louisiana", "LA"), ("Maine", "ME"),
   ("Maryland", "MD"), ("Massachusetts", "MA"), ("Michigan", "MI"),
   ("Minnesota", "MN"), ("Mississippi", "MS"), ("Missouri", "MO"),
   ("Montana", "MT"), ("Nebraska", "NE"), ("Nevada", "NV"),
   ("New Hampshire", "NH"), ("New Jersey", "NJ"), ("New Mexico", "NM"),
   ("New York", "NY"), ("North Carolina", "NC"), ("North Dakota", "ND"),
   ("Ohio", "OH"), ("Oklahoma", "OK"), ("Oregon", "OR"),
   ("Pennsylvania", "PA"), ("Rhode Island", "RI"), ("South Carolina", "SC"),
   ("South Dakota", "SD"), ("Tennessee", "TN"), ("Texas", "TX"),
   ("Utah", "UT"), ("Vermont", "VT"), ("Virginia", "VA"),
   ("Washington", "WA"), ("West Virginia", "WV"), ("Wisconsin", "WI"),
   ("Wyoming", "WY")]

/-- Model of `us.states.lookup(name)` restricted to full-name queries: find
the state whose canonical name matches, returning its abbreviation. -/
def usLookup (name : String) : Option String :=
  (usStatesList.find? (fun e => e.1 == name)).map (fun e => e.2)

/-- Embedding of the inner function `get_abbr` of `choropleth`: special-case
"District of Columbia", otherwise resolve through the `us` lookup; an
unrecognized name makes `state.abbr` fail on `None` (AttributeError). -/
def get_abbr (name : String) : Except String String :=
  if name == "District of Columbia" then Except.ok "DC"
  else
    match usLookup name with
    | some ab => Except.ok ab
    | none => Except.error "AttributeError: NoneType object has no attribute abbr"

/-- A dataset: the `States` column and the numeric indicator columns as an
association list from column name to the column's values (row order). -/
structure DataFrame where
  states : List String
  cols : List (String × List ℚ)
  deriving Repr, DecidableEq

/-- Column access `df[col]` on the numeric columns: `none` models the KeyError
raised when the column is missing. -/
def getCol (cols : List (String × List ℚ)) (c : String) : Option (List ℚ) :=
  (cols.find? (fun e => e.1 == c)).map (fun e => e.2)

/-- Arithmetic mean of a column, `df[col].mean()`: `none` models the NaN
produced on an empty column. -/
def meanQ (xs : List ℚ) : Option ℚ :=
  match xs with
  | [] => none
  | _ => some (xs.sum / (xs.length : ℚ))

/-- Sample variance (ddof = 1), the square of `df[col].std()`: `none` models
the NaN produced when fewer than two values exist. -/
def sampleVar (xs : List ℚ) : Option ℚ :=
  if xs.length ≤ 1 then none
  else
    match meanQ xs with
    | none => none
    | some m => some ((xs.map (fun x => (x - m) ^ 2)).sum / ((xs.length - 1 : ℕ) : ℚ))

/-- Column maximum, `df[col].max()`: `none` models NaN on an empty column. -/
def listMax (xs : List ℚ) : Option ℚ :=
  match xs with
  | [] => none
  | a :: t => some (t.foldl max a)

/-- Column minimum, `df[col].min()`: `none` models NaN on an empty column. -/
def listMin (xs : List ℚ) : Option ℚ :=
  match xs with
  | [] => none
  | a :: t => some (t.foldl min a)

/-- Index of the first element satisfying a predicate. -/
def findIdxQ (p : ℚ → Bool) : List ℚ → Option ℕ
  | [] => none
  | x :: t => if p x then some 0 else (findIdxQ p t).map (· + 1)

/-- Embedding of `df[col].idxmax()`: position of the first occurrence of the
maximum (pandas raises ValueError on an empty column, modelled by `none`). -/
def idxmax (xs : List ℚ) : Option ℕ :=
  match listMax xs with
  | none => none
  | some m => findIdxQ (fun x => x == m) xs

/-- Embedding of `df[col].idxmin()`: position of the first occurrence of the
minimum. -/
def idxmin (xs : List ℚ) : Option ℕ :=
  match listMin xs with
  | none => none
  | some m => findIdxQ (fun x => x == m) xs

/-- Two-digit zero-padded rendering of a natural number below 100. -/
def pad2 (k : ℕ) : String :=
  (if k < 10 then "0" else "") ++ toString k

/-- Render the number `n / 100` with exactly two decimal places. -/
def fmtNat2dp (n : ℕ) : String :=
  toString (n / 100) ++ "." ++ pad2 (n % 100)

/-- Model of Python's fixed-point format with two decimals applied to a
rational: round `100·q` to the nearest integer and render it with a decimal
point before the last two digits. -/
def fmt2dp (q : ℚ) : String :=
  let n : ℤ := round (q * 100)
  (if n < 0 then "-" else "") ++ fmtNat2dp n.natAbs

/-- Two-decimal format lifted to an optional value: `none` (NaN) renders as
"nan", as Python's format does. -/
def fmtOpt2dp (x : Option ℚ) : String :=
  match x with
  | none => "nan"
  | some q => fmt2dp q

/-- First number at or after `start` satisfying `p`, searching at most
`fuel` further steps (and returning the last candidate when fuel runs out). -/
def firstSat (p : ℕ → Bool) : ℕ → ℕ → ℕ
  | 0, start => start
  | fuel + 1, start => if p start then start else firstSat p fuel (start + 1)

/-- Round `100·√v` to the nearest natural number, for `v ≥ 0`, computed on
rationals as the least `n` with `⌊40000·v⌋ < (2n+1)²` (equivalently, the
unique `n` with `(2n-1)² ≤ 40000·v < (2n+1)²`). -/
def sqrtRound100 (v : ℚ) : ℕ :=
  let b := Int.toNat ⌊v * 40000⌋
  firstSat (fun n => decide (b < (2 * n + 1) * (2 * n + 1))) (b + 2) 0

/-- Two-decimal rendering of the sample standard deviation `√v` given the
sample variance `v`; `none` (NaN, fewer than two rows) renders as "nan". -/
def fmtStd (v : Option ℚ) : String :=
  match v with
  | none => "nan"
  | some v => fmtNat2dp (sqrtRound100 v)

/-- One row of the summary table assembled by `high_and_low`, with the four
fields "Variable", "Average ± SD", "Highest State", "Lowest State". -/
structure SummaryRow where
  varName : String
  avgSd : String
  highestState : String
  lowestState : String
  deriving Repr, DecidableEq

/-- The fixed ordered list `columns_to_summarize` of `high_and_low`. -/
def columns_to_summarize : List String :=
  ["Not_graduated", "HDI", "Health_Index", "Education_Index", "Income_Index",
   "Homeless_Ratio", "Unsheltered_Homeless", "Avg_PM25"]

/-- Loop body of `high_and_low` for one column: compute mean, std, max, min,
the states attaining the extremes, and format the summary row. -/
def summarizeCol (df : DataFrame) (col : String) : Except String SummaryRow :=
  match getCol df.cols col with
  | none => Except.error ("KeyError: " ++ col)
  | some xs =>
    match idxmax xs, idxmin xs with
    | some imax, some imin =>
      match df.states.get? imax, df.states.get? imin with
      | some smax, some smin =>
        Except.ok
          { varName := col
            avgSd := fmtOpt2dp (meanQ xs) ++ " ± " ++ fmtStd (sampleVar xs)
            highestState := smax ++ " (" ++ fmtOpt2dp (listMax xs) ++ ")"
            lowestState := smin ++ " (" ++ fmtOpt2dp (listMin xs) ++ ")" }
      | _, _ => Except.error "KeyError: States"
    | _, _ => Except.error "ValueError: attempt to get argmax of an empty sequence"

/-- The summary rows of `high_and_low`, one per column of
`columns_to_summarize`, in that order. -/
def summaryRows (df : DataFrame) : Except String (List SummaryRow) :=
  columns_to_summarize.mapM (summarizeCol df)

/-- Module-level import statements of analysis.py as (module, bound name)
pairs: `import plotly.express as px` and `import us`.  No import binds the
name `pd`, although `high_and_low` ends with `pd.DataFrame(summary)`. -/
def analysisImports : List (String × String) :=
  [("plotly.express", "px"), ("us", "us")]

/-- Whether the name `pd` is bound at module level in analysis.py. -/
def pdBound : Bool :=
  analysisImports.any (fun e => e.2 == "pd")

/-- Embedding of `high_and_low`: build the summary rows, then assemble them
with `pd.DataFrame` and print; resolving the name `pd` fails when no import
binds it, so the result is the printed table or the propagated fault. -/
def high_and_low (df : DataFrame) : Except String (List SummaryRow) := do
  let rows ← summaryRows df
  if pdBound then Except.ok rows
  else Except.error "NameError: name 'pd' is not defined"

/-- The figure handed to the plotting subsystem by `px.choropleth`. -/
structure Fig where
  locations : List String
  colorField : String
  scope : String
  colorScale : List String
  rangeColor : Option ℚ × Option ℚ
  labels : List (String × String)
  deriving Repr, DecidableEq

/-- The fixed four-step color ramp of `choropleth`. -/
def color_scale : List String :=
  ["green", "yellow", "orange", "red"]

/-- Embedding of `choropleth`: trim the `States` column in place, replace it
with postal abbreviations, then build the figure.  The returned dataset is the
caller's dataset after the in-place mutations that happened before the first
fault (or all of them, on success). -/
def choropleth (df : DataFrame) : DataFrame × Except String Fig :=
  match (df.states.map pyStrip).mapM get_abbr with
  | Except.error e => ({ df with states := df.states.map pyStrip }, Except.error e)
  | Except.ok abbrs =>
    match getCol df.cols "Avg_PM25" with
    | none => ({ df with states := abbrs }, Except.error "KeyError: Avg_PM25")
    | some xs =>
      ({ df with states := abbrs }, Except.ok
        { locations := abbrs
          colorField := "Avg_PM25"
          scope := "usa"
          colorScale := color_scale
          rangeColor := (listMin xs, listMax xs)
          labels := [("Avg_PM25", "Average PM2.5")] })

/-- Demo dataset of the spec's summary scenario: two rows CA and TX, all
eight indicator columns present, HDI holding 0.9 and 0.8. -/
def dfDemo : DataFrame :=
  { states := ["CA", "TX"]
    cols := [("Not_graduated", [1, 2]), ("HDI", [(9 : ℚ)/10, (8 : ℚ)/10]),
             ("Health_Index", [1, 2]), ("Education_Index", [1, 2]),
             ("Income_Index", [1, 2]), ("Homeless_Ratio", [1, 2]),
             ("Unsheltered_Homeless", [1, 2]), ("Avg_PM25", [1, 2])] }

/-- Demo dataset of the spec's choropleth scenario: California with
Avg_PM25 = 10 and Texas with Avg_PM25 = 20. -/
def dfPM : DataFrame :=
  { states := ["California", "Texas"], cols := [("Avg_PM25", [10, 20])] }

/-- Demo dataset with an unrecognized state name (with whitespace). -/
def dfAtlantis : DataFrame :=
  { states := ["  Atlantis "], cols := [("Avg_PM25", [1])] }

section Lemmas

open List

/-- The left trim leaves a list whose head no longer starts with the trimmed
predicate, even after a right trim, so a second left trim is the identity. -/
lemma dropWhile_rdropWhile_dropWhile (p : Char → Bool) (l : List Char) :
    dropWhile p (rdropWhile p (dropWhile p l)) = rdropWhile p (dropWhile p l) := by
  obtain ⟨u, hu⟩ := rdropWhile_prefix p (dropWhile p l)
  cases ht : rdropWhile p (dropWhile p l) with
  | nil => simp
  | cons x t =>
    have hne : dropWhile p l ≠ [] := by
      intro h0
      rw [h0, rdropWhile_nil] at ht
      exact List.noConfusion ht
    have hhead := head_dropWhile_not p l hne
    have hx : (dropWhile p l).head hne = x := by
      have heq : dropWhile p l = x :: (t ++ u) := by
        rw [← hu, ht, cons_append]
      simp [heq]
    rw [hx] at hhead
    rw [dropWhile_eq_self_iff]
    intro hl
    rw [get_mk_zero, head_cons]
    simp [hhead]

end Lemmas

/-- The characters of a packed character list. -/
lemma toList_mk (l : List Char) : (String.mk l).toList = l := rfl

/-- C10: trimming whitespace from a States value is idempotent: re-trimming
an already-trimmed name yields the same value. -/
theorem pyStrip_idempotent (s : String) : pyStrip (pyStrip s) = pyStrip s := by
  unfold pyStrip
  rw [toList_mk]
  rw [dropWhile_rdropWhile_dropWhile, List.rdropWhile_idempotent]

/-- Every entry of the state table resolves through `get_abbr` to its own
postal abbreviation. -/
lemma get_abbr_table : ∀ e ∈ usStatesList, get_abbr e.1 = Except.ok e.2 := by
  decide

/-- C2: after trimming, every valid full state name yields its unique postal
code through the abbreviation step, and "District of Columbia" yields exactly
"DC"; the produced codes are pairwise distinct across the table. -/
theorem get_abbr_valid_names :
    (∀ s e, e ∈ usStatesList → pyStrip s = e.1 → get_abbr (pyStrip s) = Except.ok e.2) ∧
    (∀ s, pyStrip s = "District of Columbia" → get_abbr (pyStrip s) = Except.ok "DC") ∧
    (usStatesList.map Prod.snd).Nodup := by
  refine ⟨fun s e he h => ?_, fun s h => ?_, by decide⟩
  · rw [h]; exact get_abbr_table e he
  · rw [h]; decide

/-- Witness for C2 at a concrete whitespace-padded valid name. -/
theorem get_abbr_valid_names_witness :
    get_abbr (pyStrip " California ") = Except.ok "CA" :=
  get_abbr_valid_names.1 " California " ("California", "CA") (by decide) (by decide)

/-- C7: on the demo dataset whose HDI column holds CA ↦ 0.9 and TX ↦ 0.8,
the summary row for HDI has highest state "CA (0.90)", lowest state
"TX (0.80)" and average ± sample standard deviation "0.85 ± 0.07". -/
theorem hdi_scenario :
    summarizeCol dfDemo "HDI" =
      Except.ok ⟨"HDI", "0.85 ± 0.07", "CA (0.90)", "TX (0.80)"⟩ := by
  decide

/-- C1: the name `pd` is unbound in analysis.py, so `high_and_low` never
returns normally: assembling the table with `pd.DataFrame` raises a
NameError before anything is printed, as evaluation on the demo dataset
shows. -/
theorem high_and_low_never_prints :
    (∀ df : DataFrame, (high_and_low df).isOk = false) ∧
    high_and_low dfDemo = Except.error "NameError: name 'pd' is not defined" := by
  constructor
  · intro df
    unfold high_and_low
    cases hsr : summaryRows df with
    | error e => rfl
    | ok rs => rfl
  · decide

/-- Mapping a fallible function over a list fails whenever some element
fails. -/
lemma mapM_exists_error {α ε β : Type} (f : α → Except ε β) :
    ∀ l : List α, (∃ x ∈ l, ∃ e, f x = Except.error e) →
      ∃ e, l.mapM f = Except.error e := by
  intro l
  induction l with
  | nil => rintro ⟨x, hx, _⟩; cases hx
  | cons a t ih =>
    rintro ⟨x, hx, e, hfe⟩
    rw [List.mapM_cons]
    rcases List.mem_cons.mp hx with rfl | hxt
    · rw [hfe]
      exact ⟨e, rfl⟩
    · cases hfa : f a with
      | error e2 => exact ⟨e2, rfl⟩
      | ok b =>
        obtain ⟨e3, he3⟩ := ih ⟨x, hxt, e, hfe⟩
        rw [he3]
        exact ⟨e3, rfl⟩

/-- C6: a row whose trimmed States value is unrecognized makes `choropleth`
fail before the figure is rendered; at the fault the caller's States column
has been trimmed in place but no abbreviation has been written, and the
other columns are untouched. -/
theorem choropleth_unknown_state_fails (df : DataFrame)
    (h : ∃ s ∈ df.states, ∃ e, get_abbr (pyStrip s) = Except.error e) :
    ∃ e, choropleth df =
      ({ df with states := df.states.map pyStrip }, Except.error e) := by
  obtain ⟨e, he⟩ := mapM_exists_error get_abbr (df.states.map pyStrip) (by
    obtain ⟨s, hs, e, hfe⟩ := h
    exact ⟨pyStrip s, List.mem_map_of_mem _ hs, e, hfe⟩)
  refine ⟨e, ?_⟩
  unfold choropleth
  rw [he]

/-- Witness for C6 on the dataset holding "  Atlantis ". -/
theorem choropleth_unknown_state_fails_witness :
    ∃ e, choropleth dfAtlantis =
      ({ dfAtlantis with states := dfAtlantis.states.map pyStrip },
       Except.error e) :=
  choropleth_unknown_state_fails dfAtlantis
    ⟨"  Atlantis ", by decide,
     "AttributeError: NoneType object has no attribute abbr", by decide⟩

/-- C9: when `choropleth` succeeds, the caller's States column has been
overwritten with the postal abbreviations and every other column is
unchanged. -/
theorem choropleth_mutates_states_only (df d : DataFrame) (f : Fig)
    (h : choropleth df = (d, Except.ok f)) :
    (df.states.map pyStrip).mapM get_abbr = Except.ok d.states ∧
      d.cols = df.cols := by
  unfold choropleth at h
  cases hm : (df.states.map pyStrip).mapM get_abbr with
  | error e =>
    rw [hm] at h
    exact absurd (congrArg Prod.snd h) (by simp)
  | ok abbrs =>
    rw [hm] at h
    cases hc : getCol df.cols "Avg_PM25" with
    | none =>
      rw [hc] at h
      exact absurd (congrArg Prod.snd h) (by simp)
    | some xs =>
      rw [hc] at h
      have hd := congrArg Prod.fst h
      simp only at hd
      rw [← hd]
      exact ⟨rfl, rfl⟩

/-- Witness for C9 on the California/Texas dataset. -/
theorem choropleth_mutates_states_only_witness :
    (dfPM.states.map pyStrip).mapM get_abbr = Except.ok ["CA", "TX"] ∧
      [("Avg_PM25", [(10 : ℚ), 20])] = dfPM.cols :=
  choropleth_mutates_states_only dfPM
    ⟨["CA", "TX"], [("Avg_PM25", [10, 20])]⟩
    { locations := ["CA", "TX"], colorField := "Avg_PM25", scope := "usa",
      colorScale := color_scale, rangeColor := (some 10, some 20),
      labels := [("Avg_PM25", "Average PM2.5")] }
    (by decide)

/-- C3: the color range passed to the renderer is the pair of the minimum
and maximum of the Avg_PM25 column, defined whenever the column is
non-empty; on the California/Texas demo dataset the abbreviation step
yields CA and TX and the range is (10, 20). -/
theorem choropleth_range_color :
    (∀ (df d : DataFrame) (f : Fig) (xs : List ℚ),
       choropleth df = (d, Except.ok f) →
       getCol df.cols "Avg_PM25" = some xs →
       f.rangeColor = (listMin xs, listMax xs) ∧
       (xs ≠ [] → ∃ mn mx, listMin xs = some mn ∧ listMax xs = some mx ∧
          f.rangeColor = (some mn, some mx))) ∧
    choropleth dfPM = (⟨["CA", "TX"], [("Avg_PM25", [10, 20])]⟩, Except.ok
      { locations := ["CA", "TX"], colorField := "Avg_PM25", scope := "usa",
        colorScale := color_scale, rangeColor := (some 10, some 20),
        labels := [("Avg_PM25", "Average PM2.5")] }) := by
  constructor
  · intro df d f xs h hxs
    unfold choropleth at h
    cases hm : (df.states.map pyStrip).mapM get_abbr with
    | error e =>
      rw [hm] at h
      exact absurd (congrArg Prod.snd h) (by simp)
    | ok abbrs =>
      rw [hm, hxs] at h
      have hf := congrArg Prod.snd h
      simp only at hf
      have hf2 := (Except.ok.inj hf).symm
      subst hf2
      constructor
      · rfl
      · intro hne
        match xs, hne with
        | a :: t, _ =>
          exact ⟨t.foldl min a, t.foldl max a, rfl, rfl, rfl⟩
  · decide

/-- Witness for C3's general component on the California/Texas dataset. -/
theorem choropleth_range_color_witness :
    Fig.rangeColor
        { locations := ["CA", "TX"], colorField := "Avg_PM25",
          scope := "usa", colorScale := color_scale,
          rangeColor := (some 10, some 20),
          labels := [("Avg_PM25", "Average PM2.5")] } =
      (listMin [(10 : ℚ), 20], listMax [(10 : ℚ), 20]) ∧
    ([(10 : ℚ), 20] ≠ [] → ∃ mn mx, listMin [(10 : ℚ), 20] = some mn ∧
      listMax [(10 : ℚ), 20] = some mx ∧
      Fig.rangeColor
          { locations := ["CA", "TX"], colorField := "Avg_PM25",
            scope := "usa", colorScale := color_scale,
            rangeColor := (some 10, some 20),
            labels := [("Avg_PM25", "Average PM2.5")] } = (some mn, some mx)) :=
  choropleth_range_color.1 dfPM ⟨["CA", "TX"], [("Avg_PM25", [10, 20])]⟩ _
    [10, 20] (by decide) (by decide)

/-- Tie dataset for the maximum: 5 occurs at positions 1 and 2. -/
def dfTieHigh : DataFrame :=
  { states := ["A", "B", "C"], cols := [("HDI", [1, 5, 5])] }

/-- Tie dataset for the minimum: 1 occurs at positions 1 and 2. -/
def dfTieLow : DataFrame :=
  { states := ["A", "B", "C"], cols := [("HDI", [5, 1, 1])] }

/-- The first-index search finds exactly the first position whose element
satisfies the predicate. -/
lemma findIdxQ_first (p : ℚ → Bool) :
    ∀ (l : List ℚ) (i : ℕ) (a : ℚ), l.get? i = some a → p a = true →
      (∀ j, j < i → ∀ b, l.get? j = some b → p b = false) →
      findIdxQ p l = some i := by
  intro l
  induction l with
  | nil => intro i a h _ _; simp at h
  | cons x t ih =>
    intro i a hget hpa hmin
    cases i with
    | zero =>
      have hx : x = a := by simpa using hget
      subst hx
      simp [findIdxQ, hpa]
    | succ j =>
      have hx : p x = false := hmin 0 (Nat.succ_pos j) x rfl
      have ht := ih j a (by simpa using hget) hpa
        (fun j2 hj2 b hb =>
          hmin (j2 + 1) (Nat.succ_lt_succ hj2) b (by simpa using hb))
      simp [findIdxQ, hx, ht]

/-- C5: when the extreme value of a summarized column is attained in several
rows, the reported state is the one of the first row attaining it; the first
conjunct treats the maximum, the second the minimum. -/
theorem extreme_state_first_occurrence :
    (∀ (df : DataFrame) (col : String) (xs : List ℚ) (r : SummaryRow)
       (m : ℚ) (i : ℕ),
       getCol df.cols col = some xs → summarizeCol df col = Except.ok r →
       listMax xs = some m → xs.get? i = some m →
       (∀ j, j < i → xs.get? j ≠ some m) →
       (∃ k, k ≠ i ∧ xs.get? k = some m) →
       ∃ s, df.states.get? i = some s ∧
         r.highestState = s ++ " (" ++ fmt2dp m ++ ")") ∧
    (∀ (df : DataFrame) (col : String) (xs : List ℚ) (r : SummaryRow)
       (m : ℚ) (i : ℕ),
       getCol df.cols col = some xs → summarizeCol df col = Except.ok r →
       listMin xs = some m → xs.get? i = some m →
       (∀ j, j < i → xs.get? j ≠ some m) →
       (∃ k, k ≠ i ∧ xs.get? k = some m) →
       ∃ s, df.states.get? i = some s ∧
         r.lowestState = s ++ " (" ++ fmt2dp m ++ ")") := by
  have hfind : ∀ (xs : List ℚ) (m : ℚ) (i : ℕ), xs.get? i = some m →
      (∀ j, j < i → xs.get? j ≠ some m) →
      findIdxQ (fun x => x == m) xs = some i := by
    intro xs m i hget hfirst
    refine findIdxQ_first _ xs i m hget (by simp) ?_
    intro j hj b hb
    by_contra hcon
    have hbm : b = m := by
      have := eq_of_beq (Bool.of_not_eq_false hcon)
      exact this
    exact hfirst j hj (hbm ▸ hb)
  constructor
  · intro df col xs r m i hcol hok hmax hget hfirst _
    have hidx : idxmax xs = some i := by
      unfold idxmax
      rw [hmax]
      exact hfind xs m i hget hfirst
    cases hmin : idxmin xs with
    | none =>
      simp only [summarizeCol, hcol, hidx, hmin] at hok
      exact absurd hok (by simp)
    | some imin =>
      cases hsm : df.states.get? i with
      | none =>
        simp only [summarizeCol, hcol, hidx, hmin, hsm] at hok
        exact absurd hok (by simp)
      | some smax =>
        cases hsn : df.states.get? imin with
        | none =>
          simp only [summarizeCol, hcol, hidx, hmin, hsm, hsn] at hok
          exact absurd hok (by simp)
        | some smin =>
          simp only [summarizeCol, hcol, hidx, hmin, hsm, hsn,
            Except.ok.injEq] at hok
          refine ⟨smax, rfl, ?_⟩
          rw [← hok]
          simp [fmtOpt2dp, hmax]
  · intro df col xs r m i hcol hok hmin hget hfirst _
    have hidx : idxmin xs = some i := by
      unfold idxmin
      rw [hmin]
      exact hfind xs m i hget hfirst
    cases hmax : idxmax xs with
    | none =>
      simp only [summarizeCol, hcol, hidx, hmax] at hok
      exact absurd hok (by simp)
    | some imax =>
      cases hsm : df.states.get? imax with
      | none =>
        simp only [summarizeCol, hcol, hidx, hmax, hsm] at hok
        exact absurd hok (by simp)
      | some smax =>
        cases hsn : df.states.get? i with
        | none =>
          simp only [summarizeCol, hcol, hidx, hmax, hsm, hsn] at hok
          exact absurd hok (by simp)
        | some smin =>
          simp only [summarizeCol, hcol, hidx, hmax, hsm, hsn,
            Except.ok.injEq] at hok
          refine ⟨smin, rfl, ?_⟩
          rw [← hok]
          simp [fmtOpt2dp, hmin]

set_option maxRecDepth 4096 in
/-- Witness for C5: on the tie datasets the reported states are the first
rows attaining the maximum and the minimum respectively. -/
theorem extreme_state_first_occurrence_witness :
    (∃ s, dfTieHigh.states.get? 1 = some s ∧
      (SummaryRow.mk "HDI" "3.67 ± 2.31" "B (5.00)" "A (1.00)").highestState =
        s ++ " (" ++ fmt2dp 5 ++ ")") ∧
    (∃ s, dfTieLow.states.get? 1 = some s ∧
      (SummaryRow.mk "HDI" "2.33 ± 2.31" "A (5.00)" "B (1.00)").lowestState =
        s ++ " (" ++ fmt2dp 1 ++ ")") := by
  constructor
  · exact extreme_state_first_occurrence.1 dfTieHigh "HDI" [1, 5, 5] _ 5 1
      (by decide) (by decide) (by decide) (by decide)
      (by intro j hj; interval_cases j; decide) ⟨2, by decide, by decide⟩
  · exact extreme_state_first_occurrence.2 dfTieLow "HDI" [5, 1, 1] _ 1 1
      (by decide) (by decide) (by decide) (by decide)
      (by intro j hj; interval_cases j; decide) ⟨2, by decide, by decide⟩

/-- C8: on a dataset with a single row, the mean of a column equals that
row's value, the sample standard deviation is undefined (NaN, rendered
"nan"), and the highest and the lowest state both name that row's state. -/
theorem single_row_summary (s : String) (v : ℚ) (col : String)
    (df : DataFrame) (hst : df.states = [s])
    (hcol : getCol df.cols col = some [v]) :
    meanQ [v] = some v ∧ sampleVar [v] = none ∧
    summarizeCol df col = Except.ok
      { varName := col, avgSd := fmt2dp v ++ " ± nan",
        highestState := s ++ " (" ++ fmt2dp v ++ ")",
        lowestState := s ++ " (" ++ fmt2dp v ++ ")" } := by
  have hmean : meanQ [v] = some v := by
    simp [meanQ]
  refine ⟨hmean, rfl, ?_⟩
  have h1 : idxmax [v] = some 0 := by simp [idxmax, listMax, findIdxQ]
  have h2 : idxmin [v] = some 0 := by simp [idxmin, listMin, findIdxQ]
  simp only [summarizeCol, hcol, h1, h2, hst]
  simp [fmtOpt2dp, fmtStd, hmean, listMax, listMin, sampleVar]
  rw [String.append_assoc]
  congr 1

/-- Witness for C8 on the one-row dataset CA ↦ 0.9. -/
theorem single_row_summary_witness :
    meanQ [(9 : ℚ)/10] = some ((9 : ℚ)/10) ∧
    sampleVar [(9 : ℚ)/10] = none ∧
    summarizeCol ⟨["CA"], [("HDI", [(9 : ℚ)/10])]⟩ "HDI" = Except.ok
      { varName := "HDI", avgSd := fmt2dp ((9 : ℚ)/10) ++ " ± nan",
        highestState := "CA" ++ " (" ++ fmt2dp ((9 : ℚ)/10) ++ ")",
        lowestState := "CA" ++ " (" ++ fmt2dp ((9 : ℚ)/10) ++ ")" } :=
  single_row_summary "CA" ((9 : ℚ)/10) "HDI" _ rfl (by decide)

/-- A string renders a number with exactly two decimal places: it splits at
a decimal point with exactly two characters, none of them a point, after it. -/
def hasTwoDecimals (s : String) : Prop :=
  ∃ t u : String, s = t ++ "." ++ u ∧ u.length = 2 ∧ '.' ∉ u.toList

/-- The zero-padded two-digit block has length two and holds no point. -/
lemma pad2_spec :
    ∀ k : Fin 100, (pad2 k.val).length = 2 ∧ '.' ∉ (pad2 k.val).toList := by
  decide

/-- The fixed-point rendering of `n / 100` has exactly two decimals. -/
lemma fmtNat2dp_hasTwoDecimals (n : ℕ) : hasTwoDecimals (fmtNat2dp n) := by
  have h := pad2_spec ⟨n % 100, Nat.mod_lt n (by norm_num)⟩
  exact ⟨toString (n / 100), pad2 (n % 100), rfl, h.1, h.2⟩

/-- The two-decimal format of any rational has exactly two decimals. -/
lemma fmt2dp_hasTwoDecimals (q : ℚ) : hasTwoDecimals (fmt2dp q) := by
  obtain ⟨t, u, h1, h2, h3⟩ := fmtNat2dp_hasTwoDecimals (round (q * 100)).natAbs
  refine ⟨(if round (q * 100) < 0 then "-" else "") ++ t, u, ?_, h2, h3⟩
  show (if round (q * 100) < 0 then "-" else "") ++
      fmtNat2dp (round (q * 100)).natAbs = _
  rw [h1]
  simp [String.append_assoc]

/-- C4: every numeric field of a summary row is rendered with exactly two
decimal places; the "Average ± SD" field joins the formatted mean and
standard deviation with "±", and the extreme-state fields append the
formatted extreme in parentheses to the state name. -/
theorem summary_row_formatting :
    (∀ q : ℚ, hasTwoDecimals (fmt2dp q)) ∧
    (∀ v : ℚ, hasTwoDecimals (fmtStd (some v))) ∧
    (∀ (df : DataFrame) (col : String) (r : SummaryRow),
       summarizeCol df col = Except.ok r →
       ∃ xs μ smax smin, getCol df.cols col = some xs ∧
         meanQ xs = some μ ∧
         r.avgSd = fmt2dp μ ++ " ± " ++ fmtStd (sampleVar xs) ∧
         (∃ mx, listMax xs = some mx ∧
            r.highestState = smax ++ " (" ++ fmt2dp mx ++ ")") ∧
         (∃ mn, listMin xs = some mn ∧
            r.lowestState = smin ++ " (" ++ fmt2dp mn ++ ")")) := by
  refine ⟨fmt2dp_hasTwoDecimals, fun v => fmtNat2dp_hasTwoDecimals _, ?_⟩
  intro df col r hok
  cases hcol : getCol df.cols col with
  | none =>
    simp only [summarizeCol, hcol] at hok
    exact absurd hok (by simp)
  | some xs =>
    cases him : idxmax xs with
    | none =>
      simp only [summarizeCol, hcol, him] at hok
      exact absurd hok (by simp)
    | some imax =>
      cases hin : idxmin xs with
      | none =>
        simp only [summarizeCol, hcol, him, hin] at hok
        exact absurd hok (by simp)
      | some imin =>
        cases hsm : df.states.get? imax with
        | none =>
          simp only [summarizeCol, hcol, him, hin, hsm] at hok
          exact absurd hok (by simp)
        | some smax =>
          cases hsn : df.states.get? imin with
          | none =>
            simp only [summarizeCol, hcol, him, hin, hsm, hsn] at hok
            exact absurd hok (by simp)
          | some smin =>
            simp only [summarizeCol, hcol, him, hin, hsm, hsn,
              Except.ok.injEq] at hok
            have hmx : ∃ mx, listMax xs = some mx := by
              cases hlm : listMax xs with
              | none =>
                rw [idxmax, hlm] at him
                exact absurd him (by simp)
              | some mx => exact ⟨mx, rfl⟩
            have hmn : ∃ mn, listMin xs = some mn := by
              cases hlm : listMin xs with
              | none =>
                rw [idxmin, hlm] at hin
                exact absurd hin (by simp)
              | some mn => exact ⟨mn, rfl⟩
            obtain ⟨mx, hmx⟩ := hmx
            obtain ⟨mn, hmn⟩ := hmn
            have hne : xs ≠ [] := by
              intro h0
              rw [h0] at hmx
              exact absurd hmx (by simp [listMax])
            have hμ : ∃ μ, meanQ xs = some μ :=
              match xs, hne with
              | a :: t, _ => ⟨_, rfl⟩
            obtain ⟨μ, hμ⟩ := hμ
            refine ⟨xs, μ, smax, smin, rfl, hμ, ?_, ⟨mx, hmx, ?_⟩,
              ⟨mn, hmn, ?_⟩⟩
            · rw [← hok]
              simp [fmtOpt2dp, hμ]
            · rw [← hok]
              simp [fmtOpt2dp, hmx]
            · rw [← hok]
              simp [fmtOpt2dp, hmn]

/-- Witness for C4 on the demo dataset's HDI summary row. -/
theorem summary_row_formatting_witness :
    ∃ xs μ smax smin, getCol dfDemo.cols "HDI" = some xs ∧
      meanQ xs = some μ ∧
      (SummaryRow.mk "HDI" "0.85 ± 0.07" "CA (0.90)" "TX (0.80)").avgSd =
        fmt2dp μ ++ " ± " ++ fmtStd (sampleVar xs) ∧
      (∃ mx, listMax xs = some mx ∧
        (SummaryRow.mk "HDI" "0.85 ± 0.07" "CA (0.90)" "TX (0.80)").highestState =
          smax ++ " (" ++ fmt2dp mx ++ ")") ∧
      (∃ mn, listMin xs = some mn ∧
        (SummaryRow.mk "HDI" "0.85 ± 0.07" "CA (0.90)" "TX (0.80)").lowestState =
          smin ++ " (" ++ fmt2dp mn ++ ")") :=
  summary_row_formatting.2.2 dfDemo "HDI" _ (by decide)

end FinalProjectDemo
